import Mathlib

/-!
Verification of the BoonGamble core against its natural-language specification.

The payout engine (`gamble.py`), the reconciliation engine and the per-notification
session step (`bot.py`) are shallowly embedded over `ℚ` (Python floats are modelled
as exact rationals, with Python's rounding and truncation operations made explicit).
Randomness (`secrets.randbelow`, `secrets.choice`) and external collaborators
(the HTTP feed, the outbound send, the bank balance and the wall clock) are
passed as explicit inputs.
-/

namespace BoonGamble

/-! ## Definitions: shallow embedding of `gamble.py` and `bot.py` -/

/-- Python `int(x)` on a float: truncation toward zero.  (`Rat.floor` is used rather
than `⌊·⌋` so that the kernel can evaluate the definition; they agree by
`Rat.floor_def'`.) -/
def pytrunc (q : ℚ) : ℤ :=
  if 0 ≤ q then Rat.floor q else -(Rat.floor (-q))

/-- Python `min` on two numbers: the first argument when it is less than or equal. -/
def pymin (a b : ℚ) : ℚ :=
  if a ≤ b then a else b

/-- Round a rational to the nearest integer, ties to even — the rounding used by
Python's `round` builtin (and by `%.2f` formatting). -/
def roundHalfEven (q : ℚ) : ℤ :=
  if q - Rat.floor q < 1/2 then Rat.floor q
  else if (1:ℚ)/2 < q - Rat.floor q then Rat.floor q + 1
  else if Rat.floor q % 2 = 0 then Rat.floor q else Rat.floor q + 1

/-- Python `round(x, 2)`: round to 2 decimal places, ties to even. -/
def round2 (q : ℚ) : ℚ := (roundHalfEven (q * 100) : ℚ) / 100

/-- Number of decimal digits of a natural number (1 for 0), computed with explicit
fuel so that the kernel can evaluate it. -/
def digitsLenAux : ℕ → ℕ → ℕ
  | 0, _ => 1
  | fuel + 1, n => if n < 10 then 1 else digitsLenAux fuel (n / 10) + 1

/-- Python `len(str(int(x)))`: the number of characters of the truncated value's
decimal representation (one extra character for the minus sign when negative). -/
def pyStrIntLen (q : ℚ) : ℕ :=
  let a := (pytrunc q).natAbs
  if pytrunc q < 0 then digitsLenAux a a + 1
  else digitsLenAux a a

/-- `config.get("max_multiplier", 4)` — default configuration value. -/
def MAX_MULTIPLIER : ℚ := 4

/-- `config.get("min_value", 1.00)` — default configuration value. -/
def MIN_VALUE : ℚ := 1

/-- `config.get("cooldown", 21600)` — default configuration value. -/
def COOLDOWN : ℚ := 21600

/-- `to_max_value` from `gamble.py`: maximum allowed wager given the bank balance. -/
def to_max_value (boons : ℚ) : ℚ := boons / MAX_MULTIPLIER / 2

/-- One coordinate of the cubic Bézier evaluation (the body of the `for i in range(2)`
loop of `cubic_bezier` in `gamble.py`). -/
def bezier_coord (t a0 a1 a2 a3 : ℚ) : ℚ :=
  (1 - t) ^ 3 * a0 + t * a1 * (3 * (1 - t) ^ 2) + a2 * (3 * (1 - t) * t ^ 2) + a3 * t ^ 3

/-- `cubic_bezier` from `gamble.py`. -/
def cubic_bezier (t : ℚ) (p0 p1 p2 p3 : ℚ × ℚ) : ℚ × ℚ :=
  (bezier_coord t p0.1 p1.1 p2.1 p3.1, bezier_coord t p0.2 p1.2 p2.2 p3.2)

/-- The risk computation of `gamble` (`gamble.py` lines 122-131): the wager/ceiling
ratio clamped to at most 1 (`risk = min(input_value / max_value, 1)`), floored at
0.65 in the low-wager regime and at 0.75 otherwise. -/
def riskOf (input_value max_value : ℚ) : ℚ :=
  if input_value < max_value / ((pyStrIntLen max_value : ℚ) * (5/4)) then
    if pymin (input_value / max_value) 1 < 13/20 then 13/20
    else pymin (input_value / max_value) 1
  else
    if pymin (input_value / max_value) 1 < 3/4 then 3/4
    else pymin (input_value / max_value) 1

/-- Control point `p1` of the probability curve (`gamble.py` line 139). -/
def bezier_p1 (risk : ℚ) : ℚ × ℚ := (pymin (risk + 1/20) 1, MAX_MULTIPLIER / 2 - risk / 4)

/-- Control point `p2` of the probability curve (`gamble.py` line 140). -/
def bezier_p2 (risk : ℚ) : ℚ × ℚ := (pymin (risk + 3/20) 1, -(1/4) - risk)

/-- The probability curve of `gamble`: the cubic Bézier through
`p0 = (0, 0)`, `p1`, `p2` and `p3 = (1, MAX_MULTIPLIER)`. -/
def gamble_curve (risk t : ℚ) : ℚ × ℚ :=
  cubic_bezier t (0, 0) (bezier_p1 risk) (bezier_p2 risk) (1, MAX_MULTIPLIER)

/-- The multiplier selection of `gamble` (`gamble.py` lines 143-152): sample the
Bézier curve at t = 0, 0.01, …, 1.00 and take the y-coordinate of the first sample
whose x-coordinate, scaled to [0,100] and truncated to an integer, reaches the random
draw; fall back to evaluating the curve at `round(rand/100, 2)` when no sample
qualifies. -/
def gamble_mult (risk : ℚ) (rand : ℕ) : ℚ :=
  match (List.range 101).find?
      (fun t : ℕ => decide ((rand : ℤ) ≤ pytrunc ((gamble_curve risk ((t : ℚ) / 100)).1 * 100))) with
  | some t => (gamble_curve risk ((t : ℚ) / 100)).2
  | none => (gamble_curve risk (round2 ((rand : ℚ) / 100))).2

/-- Errors `gamble` can raise: the explicit `ValueError` for an oversized wager, and
the `ZeroDivisionError` from `input_value / max_value` when `max_value` is zero. -/
inductive GambleError
  | invalidInput
  | zeroDivision
deriving DecidableEq

/-- `gamble` from `gamble.py`, with the random draw `rand = secrets.randbelow(100)`
passed explicitly.  Raising is modelled by `Except.error`; the returned payout is
`round(input_value * mult, 2)`. -/
def gamble (input_value max_value : ℚ) (rand : ℕ) : Except GambleError ℚ :=
  if input_value > max_value then .error .invalidInput
  else if max_value = 0 then .error .zeroDivision
  else .ok (round2 (input_value * gamble_mult (riskOf input_value max_value) rand))

/-- Decidable equality for `Except`, used to evaluate `gamble` on concrete inputs. -/
instance {ε α : Type} [DecidableEq ε] [DecidableEq α] : DecidableEq (Except ε α) := fun
  | .error e, .error f =>
    if h : e = f then .isTrue (by rw [h]) else .isFalse (by intro hh; cases hh; exact h rfl)
  | .error _, .ok _ => .isFalse (by intro h; cases h)
  | .ok _, .error _ => .isFalse (by intro h; cases h)
  | .ok a, .ok b =>
    if h : a = b then .isTrue (by rw [h]) else .isFalse (by intro hh; cases hh; exact h rfl)

/-- A parsed GOT_BOONS alert.  `Alert.from_message` (`botb.py`) always populates
`username`, `boons` and `message` (the regex message group defaults to `""`), so a
well-formed feed entry carries all three fields. -/
structure BoonAlert where
  username : String
  boons : ℚ
  message : String
deriving DecidableEq

/-- A persisted transaction record, as appended by `give_boons_logged` (`bot.py`).
`input_message` is kept optional so that the `"input_message" in transaction`
membership tests of the comparison helpers are modelled. -/
structure Txn where
  username : String
  input_amount : ℚ
  input_message : Option String
  amount : ℚ
  message : String
  timestamp : ℚ
deriving DecidableEq

/-- `alert_same_as_alert` from `bot.py` lines 104-111. -/
def alert_same_as_alert (a1 a2 : BoonAlert) : Bool :=
  if a1.boons ≠ a2.boons then false
  else if a1.username ≠ a2.username then false
  else if a1.message ≠ a2.message then false
  else true

/-- `alert_same_as_transaction` from `bot.py` lines 114-123.  A parsed alert always
has a `message` entry (see `BoonAlert`), so of the `"message" in alert.data and
"input_message" in transaction` guard only the transaction side is a real test. -/
def alert_same_as_transaction (alert : BoonAlert) (transaction : Txn) : Bool :=
  if alert.boons ≠ transaction.input_amount then false
  else if alert.username ≠ transaction.username then false
  else
    match transaction.input_message with
    | some im => if alert.message ≠ im then false else true
    | none => true

/-- `transaction_same_as_transaction` from `bot.py` lines 126-135, transcribed as
written in the source: the `input_amount` and `username` tests compare `t1` with
itself (both are vacuously false guards), so only the `input_message` fields are
actually compared. -/
def transaction_same_as_transaction (t1 t2 : Txn) : Bool :=
  if t1.input_amount ≠ t1.input_amount then false
  else if t1.username ≠ t1.username then false
  else
    match t1.input_message, t2.input_message with
    | some m1, some m2 => if m1 ≠ m2 then false else true
    | _, _ => true

/-- `list(reversed(state["transactions"][-100:]))`: the most recent (at most) 100
persisted transactions, newest first (`bot.py` line 173). -/
def last_transactions (transactions : List Txn) : List Txn :=
  (transactions.drop (transactions.length - 100)).reverse

/-- Errors the reconciliation step can raise: Python `IndexError` from an
out-of-range list subscript. -/
inductive RecError
  | indexError
deriving DecidableEq

/-- The reconciliation step of `main` (`bot.py` lines 169-201): decide which feed
entries are new.  `alerts` is the newest-first feed, `handled` is
`state["handled_alerts"]` and `transactions` is the persisted log (oldest first).
The list subscripts `last_transactions[0]` and `alerts[len(new_alerts)]` raise
`IndexError` when out of range, modelled by `Except.error`. -/
def reconcile (alerts : List BoonAlert) (handled : ℕ) (transactions : List Txn) :
    Except RecError (List BoonAlert) :=
  if handled < 100 then .ok (alerts.drop handled)
  else
    match last_transactions transactions with
    | [] => .error .indexError
    | t0 :: ts =>
      let new_alerts := alerts.takeWhile (fun a => !alert_same_as_transaction a t0)
      match alerts.drop new_alerts.length with
      | [] => .error .indexError
      | boundary :: _ =>
        if alert_same_as_transaction boundary t0 then
          match alerts with
          | [] => .error .indexError
          | a0 :: arest =>
            let a_doubles := 1 + (arest.takeWhile (fun a => alert_same_as_alert a a0)).length
            let t_doubles :=
              1 + (ts.takeWhile (fun t => transaction_same_as_transaction t t0)).length
            let new_doubles : ℤ := (a_doubles : ℤ) - (t_doubles : ℤ)
            if 0 < new_doubles then
              .ok (new_alerts ++ (alerts.drop new_alerts.length).take new_doubles.toNat)
            else
              .ok new_alerts
        else .ok new_alerts

/-- The session loop processes the new entries oldest first: `new_alerts[::-1]`
(`bot.py` line 208). -/
def process_order (new_alerts : List BoonAlert) : List BoonAlert := new_alerts.reverse

/-- Concrete feed entries and transactions for the reconciliation scenarios. -/
def alertU1 : BoonAlert := ⟨"u1", 1, ""⟩

def alertU2 : BoonAlert := ⟨"u2", 2, ""⟩

def alertU3 : BoonAlert := ⟨"u3", 3, "m3"⟩

def alertU4 : BoonAlert := ⟨"u4", 4, "m4"⟩

def alertDup : BoonAlert := ⟨"n00b", 5, "hi"⟩

def txnU3 : Txn := ⟨"u3", 3, some "m3", 3, "ok", 0⟩

def txnU4 : Txn := ⟨"u4", 4, some "m4", 4, "ok", 0⟩

def txnDupTop : Txn := ⟨"n00b", 5, some "hi", 5, "resp", 0⟩

def txnOther : Txn := ⟨"other", 7, some "hi", 7, "resp", 0⟩

/-- Python `"%02i" % v`: the integer is printed with a zero-pad to total width 2
(a negative value already reaches width 2 with its sign). -/
def fmt02 (n : ℤ) : String :=
  if 0 ≤ n then (if n < 10 then "0" ++ n.natAbs.repr else n.natAbs.repr)
  else "-" ++ n.natAbs.repr

/-- Python float floor-division `a // b`. -/
def pyfloordiv (a b : ℚ) : ℚ := (Rat.floor (a / b) : ℚ)

/-- Python float modulo `a % b`, defined by `a - b * (a // b)`. -/
def pymod (a b : ℚ) : ℚ := a - b * pyfloordiv a b

/-- `format_seconds_to_hhmmss` from `bot.py` lines 56-61.  The argument is a Python
float; `//=` and `%=` are float operations and `"%02i"` truncates each component to
an integer. -/
def format_seconds_to_hhmmss (seconds : ℚ) : String :=
  let hours := pyfloordiv seconds (60 * 60)
  let seconds1 := pymod seconds (60 * 60)
  let minutes := pyfloordiv seconds1 60
  let seconds2 := pymod seconds1 60
  fmt02 (pytrunc hours) ++ ":" ++ fmt02 (pytrunc minutes) ++ ":" ++ fmt02 (pytrunc seconds2)

/-- Lookup in the `state["cooldowns"]` mapping (modelled as an association list). -/
def lookupCooldown : List (String × ℚ) → String → Option ℚ
  | [], _ => none
  | (k, v) :: rest, u => if k = u then some v else lookupCooldown rest u

/-- `state["cooldowns"][username] = value`: update the mapping. -/
def updateCooldown (cooldowns : List (String × ℚ)) (u : String) (v : ℚ) :
    List (String × ℚ) :=
  (u, v) :: cooldowns.filter (fun kv => kv.1 != u)

/-- Result of the cooldown gate (spec §4.3): allowed, or blocked with the remaining
wait and its HH:MM:SS rendering. -/
inductive CooldownResult
  | allowed
  | blocked (remaining : ℚ) (formatted : String)
deriving DecidableEq

/-- The cooldown gate of `main` (`bot.py` lines 248-252): a sender present in the
cooldown map is blocked iff `now - cooldowns[sender] < window`, with remaining wait
`window - (now - cooldowns[sender])` formatted by `format_seconds_to_hhmmss`. -/
def check_cooldown (username : String) (now : ℚ) (cooldowns : List (String × ℚ))
    (window : ℚ) : CooldownResult :=
  match lookupCooldown cooldowns username with
  | none => .allowed
  | some tstamp =>
    if now - tstamp < window then
      .blocked (window - (now - tstamp)) (format_seconds_to_hhmmss (window - (now - tstamp)))
    else .allowed

/-- The `data` dict of a raw alert, with each key possibly missing (a well-formed
GOT_BOONS alert has all three; the parse-failure handling of `main` concerns
alerts where some are absent). -/
structure RawData where
  username : Option String
  boons : Option ℚ
  message : Option String
deriving DecidableEq

/-- A raw alert: `data` is `None` for an unparsed notification. -/
structure RawAlert where
  data : Option RawData
deriving DecidableEq

/-- The mutable session state (`state` in `bot.py`). -/
structure BotState where
  handled_alerts : ℕ
  cooldowns : List (String × ℚ)
  transactions : List Txn
deriving DecidableEq

/-- Python exceptions that can escape the per-notification step. -/
inductive PyErr
  | keyError
  | typeError
  | unboundLocal
deriving DecidableEq

/-- `give_boons_logged` from `bot.py` lines 34-51: append a transaction record, then
perform the outbound send.  Building the record reads `input_alert.data["boons"]`
(raising `TypeError` when `data` is `None` and `KeyError` when the key is absent)
and `input_alert.data.get("message", "")`.  The outbound `b.give_boons` call is an
external collaborator, modelled as succeeding. -/
def give_boons_logged (st : BotState) (input_alert : RawAlert) (username : String)
    (amount : ℚ) (message : String) (now : ℚ) : Except PyErr BotState :=
  match input_alert.data with
  | none => .error .typeError
  | some d =>
    match d.boons with
    | none => .error .keyError
    | some input_amount =>
      .ok { st with transactions := st.transactions ++
        [{ username := username, input_amount := input_amount,
           input_message := some (d.message.getD ""), amount := amount,
           message := message, timestamp := now }] }

/-- `secrets.choice`: an element of the list selected by the external randomness
`pick`. -/
def secrets_choice (options : List String) (pick : ℕ) : String :=
  options.getD (pick % options.length) ""

/-- Python `f"{q:.2f}"`: fixed two-decimal rendering (round half to even). -/
def pyFmt2 (q : ℚ) : String :=
  (if roundHalfEven (q * 100) < 0 then "-" else "") ++
    ((roundHalfEven (q * 100)).natAbs / 100).repr ++ "." ++
    (if (roundHalfEven (q * 100)).natAbs % 100 < 10 then "0" else "") ++
    ((roundHalfEven (q * 100)).natAbs % 100).repr

/-- Python `pat in s` on strings: substring containment. -/
def containsSubstr (s pat : String) : Bool :=
  decide (2 ≤ (s.splitOn pat).length)

/-- `witty_message` from `bot.py` lines 64-101, with the `secrets.choice` draws
supplied by the external randomness `pick`.  (Note the source's
`in_value == in_value * MAX_MULTIPLIER` jackpot test is transcribed as written.) -/
def witty_message (in_value out_value : ℚ) (pick : ℕ) : String :=
  if out_value = 0 then
    "You lost it ALL, n00b.. what bad luck! (lost b" ++ pyFmt2 in_value ++ ")"
  else if in_value > out_value then
    secrets_choice
      ["Not quite so lucky this time, eh, n00b??", "Better luck next tiem, n00b!!",
       "Not quite boonsave, eh, n00b??", "Aw dang it, n00b!"] pick
      ++ " (lost b" ++ pyFmt2 (in_value - out_value) ++ ")"
  else if in_value = out_value then
    "Got back what you put in, n00b? How \x27bout another try?"
  else if in_value < out_value then
    (if in_value = in_value * MAX_MULTIPLIER then "JACKPOT!!! You get teh full multiplier!"
     else if in_value < out_value * (23/20) then "Hey, that\x27s a nice little victory, eh?"
     else secrets_choice
       ["Lucky you, you win, n00b!!", "Sweet sweet b00ns coming your way!!"] pick)
      ++ " (won b" ++ pyFmt2 (out_value - in_value) ++ ")"
  else "ERROR: Witty Message Machine Broke"

/-- The terminal branch a per-notification run of `main` took. -/
inductive Branch
  | parseFail
  | boonsave
  | cooldownBlocked
  | overLimit
  | underMin
  | gambleFail
  | payout
deriving DecidableEq

/-- Outcome of one per-notification iteration: the session state as mutated so far,
the branch taken, and the uncaught Python exception if one escaped. -/
structure StepResult where
  state : BotState
  branch : Branch
  err : Option PyErr
deriving DecidableEq

/-- One iteration of the `for alert in new_alerts[::-1]` loop of `main`
(`bot.py` lines 208-344), for a single alert.  External inputs are passed
explicitly: `now` is `time.time()`, `bank` the bot's own boon count
(`b.get_self_botbr().boons`), `rand` the payout draw and `pick` the
`secrets.choice` draw.  Parsing failures follow the source's recovery logic:
with `data = None` both parse attempts and the fallback fail (`username` is an
unbound local, and `input_alert.data["boons"]` is a `None` subscript), and with a
missing `boons` key the fallback `give_boons_logged` itself raises `KeyError`
before any state change; an uncaught exception leaves the state as already
mutated and is reported in `err`. -/
def handle_alert (st : BotState) (alert : RawAlert) (now bank : ℚ) (rand pick : ℕ) :
    StepResult :=
  match alert.data with
  | none => { state := st, branch := .parseFail, err := some .unboundLocal }
  | some d =>
    match d.username with
    | none => { state := st, branch := .parseFail, err := some .unboundLocal }
    | some username =>
      match d.boons with
      | none =>
        match give_boons_logged st alert username (1/100)
            "Failed to get boon count, contact admin!!" now with
        | .error e => { state := st, branch := .parseFail, err := some e }
        | .ok st1 => { state := { st1 with handled_alerts := st1.handled_alerts + 1 },
                       branch := .parseFail, err := none }
      | some boons =>
        let message := d.message.getD ""
        if message.toLower.startsWith "!boonsave"
            || containsSubstr message.toLower "(donation)" then
          { state := { st with handled_alerts := st.handled_alerts + 1 },
            branch := .boonsave, err := none }
        else
          match check_cooldown username now st.cooldowns COOLDOWN with
          | .blocked _ left_str =>
            match give_boons_logged st alert username boons
                ("Not so fast, n00b! (Cooldown: wait " ++ left_str ++ " & try again)")
                now with
            | .error e => { state := st, branch := .cooldownBlocked, err := some e }
            | .ok st1 => { state := { st1 with handled_alerts := st1.handled_alerts + 1 },
                           branch := .cooldownBlocked, err := none }
          | .allowed =>
            if boons > to_max_value bank then
              match give_boons_logged st alert username boons
                  ("Whaddarya, tha bank?! (Max. value is b" ++ pyFmt2 (to_max_value bank) ++ ")")
                  now with
              | .error e => { state := st, branch := .overLimit, err := some e }
              | .ok st1 => { state := { st1 with handled_alerts := st1.handled_alerts + 1 },
                             branch := .overLimit, err := none }
            else if boons < MIN_VALUE then
              match give_boons_logged st alert username boons
                  ("That won\x27t do, n00b!! (Min. value is b" ++ pyFmt2 MIN_VALUE ++ ")")
                  now with
              | .error e => { state := st, branch := .underMin, err := some e }
              | .ok st1 => { state := { st1 with handled_alerts := st1.handled_alerts + 1 },
                             branch := .underMin, err := none }
            else
              match gamble boons (to_max_value bank) rand with
              | .error _ =>
                match give_boons_logged st alert username boons
                    "Yikes, sumthin\x27s wrong!! (Internal exception: GAMBL_ERR)" now with
                | .error e => { state := st, branch := .gambleFail, err := some e }
                | .ok st1 => { state := { st1 with handled_alerts := st1.handled_alerts + 1 },
                               branch := .gambleFail, err := none }
              | .ok out_value =>
                match give_boons_logged
                    { st with cooldowns := updateCooldown st.cooldowns username now }
                    alert username out_value (witty_message boons out_value pick) now with
                | .error e =>
                  { state := { st with cooldowns := updateCooldown st.cooldowns username now },
                    branch := .payout, err := some e }
                | .ok st2 =>
                  { state := { st2 with handled_alerts := st2.handled_alerts + 1 },
                    branch := .payout, err := none }

/-! ## Theorems -/

theorem ratFloor_eq_floor (q : ℚ) : Rat.floor q = ⌊q⌋ := by
  rw [Rat.floor_def', Rat.floor_def]

theorem roundHalfEven_le (q : ℚ) : (roundHalfEven q : ℚ) ≤ q + 1/2 := by
  unfold roundHalfEven
  simp only [ratFloor_eq_floor]
  have h1 := Int.floor_le q
  have h2 := Int.lt_floor_add_one q
  split_ifs <;> push_cast <;> linarith

theorem le_roundHalfEven (q : ℚ) : q - 1/2 ≤ (roundHalfEven q : ℚ) := by
  unfold roundHalfEven
  simp only [ratFloor_eq_floor]
  have h1 := Int.floor_le q
  have h2 := Int.lt_floor_add_one q
  split_ifs <;> push_cast <;> linarith

theorem roundHalfEven_nonneg (q : ℚ) (h : 0 ≤ q) : 0 ≤ roundHalfEven q := by
  unfold roundHalfEven
  simp only [ratFloor_eq_floor]
  have h0 : (0:ℤ) ≤ ⌊q⌋ := Int.floor_nonneg.2 h
  split_ifs <;> omega

theorem round2_le (q : ℚ) : round2 q ≤ q + 1/200 := by
  unfold round2
  have := roundHalfEven_le (q * 100)
  linarith

theorem round2_nonneg (q : ℚ) (h : 0 ≤ q) : 0 ≤ round2 q := by
  unfold round2
  have h1 : (0:ℤ) ≤ roundHalfEven (q * 100) := roundHalfEven_nonneg _ (by positivity)
  have h2 : (0:ℚ) ≤ (roundHalfEven (q * 100) : ℚ) := by exact_mod_cast h1
  linarith

theorem riskOf_bounds (w c : ℚ) (hw : 0 ≤ w) (hwc : w ≤ c) (hc : 0 < c) :
    13/20 ≤ riskOf w c ∧ riskOf w c ≤ 1 := by
  have h0 : 0 ≤ w / c := div_nonneg hw hc.le
  have h1 : w / c ≤ 1 := (div_le_one hc).2 hwc
  unfold riskOf pymin
  split_ifs <;> constructor <;> linarith

theorem gamble_curve_y_nonneg (risk τ : ℚ) (_h1 : 13/20 ≤ risk) (h2 : risk ≤ 1)
    (ht0 : 0 ≤ τ) (ht1 : τ ≤ 1) : 0 ≤ (gamble_curve risk τ).2 := by
  have hu : 0 ≤ 1 - τ := by linarith
  have hr1 : 0 ≤ 1 - risk := by linarith
  have key : (gamble_curve risk τ).2
      = τ * (3 * (1 - τ)^2 * (2 - risk/4) - 3 * (1 - τ) * τ * (1/4 + risk) + 4 * τ^2) := by
    unfold gamble_curve cubic_bezier bezier_p1 bezier_p2 bezier_coord MAX_MULTIPLIER
    ring
  rw [key]
  apply mul_nonneg ht0
  nlinarith [sq_nonneg (14 * (1 - τ) - 5 * τ), sq_nonneg τ,
    mul_nonneg (mul_nonneg hu hu) hr1, mul_nonneg (mul_nonneg hu ht0) hr1]

theorem gamble_curve_y_le (risk τ : ℚ) (h1 : 13/20 ≤ risk) (_h2 : risk ≤ 1)
    (ht0 : 0 ≤ τ) (ht1 : τ ≤ 1) : (gamble_curve risk τ).2 ≤ MAX_MULTIPLIER := by
  have hu : 0 ≤ 1 - τ := by linarith
  have hr0 : (0:ℚ) ≤ risk := by linarith
  have key : MAX_MULTIPLIER - (gamble_curve risk τ).2
      = (1 - τ) * (4 * (1 + τ + τ^2) - 3 * (1 - τ) * τ * (2 - risk/4) + 3 * τ^2 * (1/4 + risk)) := by
    unfold gamble_curve cubic_bezier bezier_p1 bezier_p2 bezier_coord MAX_MULTIPLIER
    ring
  have hg : 0 ≤ 4 * (1 + τ + τ^2) - 3 * (1 - τ) * τ * (2 - risk/4) + 3 * τ^2 * (1/4 + risk) := by
    nlinarith [mul_nonneg (mul_nonneg hu ht0) hr0, mul_nonneg (sq_nonneg τ) hr0, sq_nonneg τ]
  nlinarith [mul_nonneg hu hg]

theorem gamble_mult_bounds (risk : ℚ) (rand : ℕ) (h1 : 13/20 ≤ risk) (h2 : risk ≤ 1)
    (hr : rand < 100) : 0 ≤ gamble_mult risk rand ∧ gamble_mult risk rand ≤ MAX_MULTIPLIER := by
  unfold gamble_mult
  cases hfind : (List.range 101).find?
      (fun t : ℕ => decide ((rand : ℤ) ≤ pytrunc ((gamble_curve risk ((t : ℚ) / 100)).1 * 100))) with
  | some k =>
    have hk : k ∈ List.range 101 := List.mem_of_find?_eq_some hfind
    have hk101 : k < 101 := List.mem_range.mp hk
    have ht0 : (0:ℚ) ≤ (k : ℚ) / 100 := by positivity
    have ht1 : ((k : ℚ) / 100) ≤ 1 := by
      rw [div_le_one (by norm_num)]
      exact_mod_cast Nat.lt_succ_iff.mp hk101
    exact ⟨gamble_curve_y_nonneg risk _ h1 h2 ht0 ht1, gamble_curve_y_le risk _ h1 h2 ht0 ht1⟩
  | none =>
    have hq0 : (0:ℚ) ≤ (rand : ℚ) / 100 := by positivity
    have ht0 : (0:ℚ) ≤ round2 ((rand : ℚ) / 100) := round2_nonneg _ hq0
    have hr99 : (rand : ℚ) ≤ 99 := by exact_mod_cast Nat.le_of_lt_succ hr
    have ht1 : round2 ((rand : ℚ) / 100) ≤ 1 := by
      have h := round2_le ((rand : ℚ) / 100)
      linarith
    exact ⟨gamble_curve_y_nonneg risk _ h1 h2 ht0 ht1, gamble_curve_y_le risk _ h1 h2 ht0 ht1⟩

/-- Claim C1 (amended): for every wager `w` and ceiling `c` with `0 ≤ w ≤ c`, `c > 0`,
and every random draw `r ∈ [0, 100)`, `gamble w c r` succeeds and returns a payout in
`[0, w * MAX_MULTIPLIER + 1/200]` that is a whole number of hundredths.  (The final
rounding to the nearest cent can exceed `w * MAX_MULTIPLIER` by up to half a cent,
which is why the upper bound carries the `1/200` slack; see the counterexample.) -/
theorem gamble_payout_bounds (w c : ℚ) (r : ℕ) (hw : 0 ≤ w) (hwc : w ≤ c) (hc : 0 < c)
    (hr : r < 100) :
    ∃ v, gamble w c r = .ok v ∧ 0 ≤ v ∧ v ≤ w * MAX_MULTIPLIER + 1/200 ∧
      ∃ n : ℤ, v = (n : ℚ) / 100 := by
  have h1 : ¬ w > c := not_lt.2 hwc
  have h2 : ¬ c = 0 := ne_of_gt hc
  obtain ⟨hrb1, hrb2⟩ := riskOf_bounds w c hw hwc hc
  obtain ⟨hm0, hm1⟩ := gamble_mult_bounds (riskOf w c) r hrb1 hrb2 hr
  refine ⟨round2 (w * gamble_mult (riskOf w c) r), ?_, ?_, ?_,
    ⟨roundHalfEven (w * gamble_mult (riskOf w c) r * 100), rfl⟩⟩
  · unfold gamble
    rw [if_neg h1, if_neg h2]
  · exact round2_nonneg _ (mul_nonneg hw hm0)
  · have hmul : w * gamble_mult (riskOf w c) r ≤ w * MAX_MULTIPLIER :=
      mul_le_mul_of_nonneg_left hm1 hw
    have hrd := round2_le (w * gamble_mult (riskOf w c) r)
    linarith

/-- Witness for C1's amended bound theorem at the concrete input `w = 1`, `c = 2`,
`r = 0`. -/
theorem gamble_payout_bounds_witness :
    ∃ v, gamble 1 2 0 = .ok v ∧ 0 ≤ v ∧ v ≤ 1 * MAX_MULTIPLIER + 1/200 ∧
      ∃ n : ℤ, v = (n : ℚ) / 100 :=
  gamble_payout_bounds 1 2 0 (by norm_num) (by norm_num) (by norm_num) (by norm_num)

/-- Claim C1, counterexample to the claim as stated: with wager `3/2000 = 0.0015`,
ceiling `1` and draw `99`, `gamble` returns `0.01`, which exceeds
`wager * MAX_MULTIPLIER = 0.006` — the payout is not in `[0, wager * max_multiplier]`. -/
theorem gamble_payout_bound_counterexample :
    gamble (3/2000) 1 99 = .ok (1/100) ∧ ¬ ((1:ℚ)/100 ≤ 3/2000 * MAX_MULTIPLIER) := by
  constructor
  · with_unfolding_all decide
  · rw [MAX_MULTIPLIER]
    norm_num

/-- Claim C6 (amended): `gamble` fails with the invalid-input error whenever
`wager > ceiling`; for `wager ≤ ceiling` it returns a payout without error provided
the ceiling is nonzero (when the ceiling is zero the risk computation divides by zero,
which raises before any payout is computed). -/
theorem gamble_invalid_input_iff (w c : ℚ) (r : ℕ) :
    (w > c → gamble w c r = .error .invalidInput) ∧
    (w ≤ c → c ≠ 0 → ∃ v, gamble w c r = .ok v) := by
  constructor
  · intro h
    unfold gamble
    rw [if_pos h]
  · intro h hc
    unfold gamble
    rw [if_neg (not_lt.2 h), if_neg hc]
    exact ⟨_, rfl⟩

/-- Witness for C6's amended theorem: `gamble 3 2 5` (wager over ceiling) raises the
invalid-input error, and `gamble 1 2 5` (wager within a nonzero ceiling) succeeds. -/
theorem gamble_invalid_input_iff_witness :
    gamble 3 2 5 = .error .invalidInput ∧ ∃ v, gamble 1 2 5 = .ok v :=
  ⟨(gamble_invalid_input_iff 3 2 5).1 (by norm_num),
   (gamble_invalid_input_iff 1 2 5).2 (by norm_num) (by norm_num)⟩

/-- Claim C6, counterexample to "and only then": with wager `0 ≤ ceiling` `0`, the
claim promises an error-free payout, but `gamble 0 0 r` raises `ZeroDivisionError`
from `input_value / max_value`. -/
theorem gamble_zero_ceiling_counterexample :
    (0:ℚ) ≤ 0 ∧ gamble 0 0 0 = .error .zeroDivision := by
  constructor
  · norm_num
  · with_unfolding_all decide

/-- Claim C10: the payout engine is a pure function of `(wager, ceiling)` and the
random draw — two invocations with the same explicit inputs and the same draw yield
the identical result. -/
theorem gamble_deterministic (w c : ℚ) (r₁ r₂ : ℕ) (h : r₁ = r₂) :
    gamble w c r₁ = gamble w c r₂ := by
  rw [h]

/-- Witness for C10 at concrete inputs. -/
theorem gamble_deterministic_witness : gamble 1 2 7 = gamble 1 2 7 :=
  gamble_deterministic 1 2 7 7 rfl

theorem length_takeWhile_lt_of_mem {α : Type} (p : α → Bool) (l : List α) (a : α)
    (ha : a ∈ l) (hpa : p a = false) : (l.takeWhile p).length < l.length := by
  induction l with
  | nil => cases ha
  | cons b bl ih =>
    rw [List.takeWhile_cons]
    cases hb : p b with
    | false => simp
    | true =>
      rcases List.mem_cons.mp ha with rfl | hmem
      · rw [hb] at hpa; cases hpa
      · simpa using ih hmem

/-- Claim C9: when fewer than 100 notifications have ever been handled, reconciliation
returns exactly the feed entries at indices ≥ handled_count (without error), and the
session loop processes them oldest-first — the feed is newest-first, so the
processing order `new_alerts[::-1]` is the reverse of the returned list. -/
theorem reconcile_cold_start (alerts : List BoonAlert) (handled : ℕ)
    (transactions : List Txn) (h : handled < 100) :
    reconcile alerts handled transactions = .ok (alerts.drop handled) ∧
    process_order (alerts.drop handled) = (alerts.drop handled).reverse := by
  constructor
  · unfold reconcile
    rw [if_pos h]
  · rfl

/-- Witness for C9: cold start, handled_count 0 and a feed of 5 entries — all 5 are
returned and processing reverses them to oldest-first. -/
theorem reconcile_cold_start_witness :
    reconcile [alertU1, alertU2, alertU3, alertU4, alertDup] 0 []
      = .ok ([alertU1, alertU2, alertU3, alertU4, alertDup].drop 0) ∧
    process_order ([alertU1, alertU2, alertU3, alertU4, alertDup].drop 0)
      = ([alertU1, alertU2, alertU3, alertU4, alertDup].drop 0).reverse :=
  reconcile_cold_start [alertU1, alertU2, alertU3, alertU4, alertDup] 0 [] (by norm_num)

/-- Claim C2 (amended): in the steady state (handled_count ≥ 100) the walk stops at
the first feed entry that value-matches the MOST RECENT persisted transaction — the
code compares only against `last_transactions[0]`, not against all of the most recent
100.  With the 3rd-newest feed entry matching the most recent transaction, the two
newer entries not matching it, and the two newer entries not value-identical
duplicates of one another (so the best-effort duplicate-collapse correction does not
fire), exactly the 2 newest feed entries are returned. -/
theorem reconcile_steady_state (a0 a1 a2 : BoonAlert) (rest : List BoonAlert)
    (handled : ℕ) (transactions : List Txn) (t0 : Txn) (ts : List Txn)
    (hh : ¬ handled < 100)
    (hlast : last_transactions transactions = t0 :: ts)
    (h0 : alert_same_as_transaction a0 t0 = false)
    (h1 : alert_same_as_transaction a1 t0 = false)
    (h2 : alert_same_as_transaction a2 t0 = true)
    (hdup : alert_same_as_alert a1 a0 = false) :
    reconcile (a0 :: a1 :: a2 :: rest) handled transactions = .ok [a0, a1] := by
  unfold reconcile
  rw [if_neg hh, hlast]
  simp only [List.takeWhile_cons, h0, h1, h2, hdup, Bool.not_false, Bool.not_true,
    Bool.false_eq_true, Bool.true_eq_false, if_true, if_false, ite_true, ite_false,
    List.length_cons, List.length_nil, List.drop_succ_cons, List.drop_zero]
  split_ifs with hq
  · exfalso
    omega
  · rfl

/-- Witness for C2's amended theorem: handled_count 150, feed `[u1, u2, u4]` whose
3rd-newest entry matches the most recent transaction `txnU4` — the 2 newest entries
are returned. -/
theorem reconcile_steady_state_witness :
    reconcile [alertU1, alertU2, alertU4] 150 [txnU3, txnU4] = .ok [alertU1, alertU2] :=
  reconcile_steady_state alertU1 alertU2 alertU4 [] 150 [txnU3, txnU4] txnU4 [txnU3]
    (by norm_num) rfl (by with_unfolding_all decide) (by with_unfolding_all decide)
    (by with_unfolding_all decide) (by with_unfolding_all decide)

/-- Claim C2, counterexample to the claim as stated: handled_count 150, feed
`[u1, u2, u3, u4]` (newest first).  The 3rd-newest entry `u3` value-matches `txnU3`,
one of the most recent 100 persisted transactions, and no newer feed entry matches
any persisted transaction, so the claim predicts exactly the 2 newest entries; but
the code compares only against the most recent transaction `txnU4`, walks past `u3`,
and returns 3 entries. -/
theorem reconcile_steady_state_counterexample :
    alert_same_as_transaction alertU3 txnU3 = true ∧
    alert_same_as_transaction alertU1 txnU3 = false ∧
    alert_same_as_transaction alertU1 txnU4 = false ∧
    alert_same_as_transaction alertU2 txnU3 = false ∧
    alert_same_as_transaction alertU2 txnU4 = false ∧
    reconcile [alertU1, alertU2, alertU3, alertU4] 150 [txnU3, txnU4]
      = .ok [alertU1, alertU2, alertU3] := by
  with_unfolding_all decide

/-- Claim C3 (code bug): handled_count 150, the feed is a run of 3 value-identical
entries matching the most recent transaction `txnDupTop`, and the persisted log's
tail run of value-identical transactions has length 1 (`txnOther` differs from
`txnDupTop` in both username and amount).  The spec predicts exactly 2 new entries,
but `transaction_same_as_transaction` compares `t1` with itself on `input_amount` and
`username` (an evident typo — compare `alert_same_as_alert`), so it declares
`txnOther` "the same as" `txnDupTop` merely because both carry the message "hi";
the transaction run is overcounted and only 1 new entry is returned. -/
theorem reconcile_duplicate_collapse_bug :
    txnOther.username ≠ txnDupTop.username ∧
    txnOther.input_amount ≠ txnDupTop.input_amount ∧
    transaction_same_as_transaction txnOther txnDupTop = true ∧
    reconcile [alertDup, alertDup, alertDup] 150 [txnOther, txnDupTop] = .ok [alertDup] := by
  with_unfolding_all decide

/-- Claim C4 (amended): the reconciliation step raises no IndexError provided the
reversed recent-transaction list is non-empty and some feed entry value-matches the
most recent persisted transaction.  (When no feed entry matches, the boundary check
`alerts[len(new_alerts)]` indexes one past the end of the feed — see the
counterexample.) -/
theorem reconcile_no_index_error (alerts : List BoonAlert) (handled : ℕ)
    (transactions : List Txn) (t0 : Txn) (ts : List Txn)
    (hh : ¬ handled < 100)
    (hlast : last_transactions transactions = t0 :: ts)
    (a : BoonAlert) (ha : a ∈ alerts) (hpa : alert_same_as_transaction a t0 = true) :
    ∃ l, reconcile alerts handled transactions = .ok l := by
  cases alerts with
  | nil => cases ha
  | cons c cl =>
    have hlt : (((c :: cl).takeWhile (fun x => !alert_same_as_transaction x t0)).length
        < (c :: cl).length) :=
      length_takeWhile_lt_of_mem _ _ a ha (by simp [hpa])
    unfold reconcile
    rw [if_neg hh, hlast]
    cases hd : (c :: cl).drop
        (((c :: cl).takeWhile (fun x => !alert_same_as_transaction x t0)).length) with
    | nil =>
      exfalso
      have := List.drop_eq_nil_iff.mp hd
      omega
    | cons b bs =>
      simp only [hd]
      split_ifs <;> exact ⟨_, rfl⟩

/-- Witness for C4's amended theorem: the single-entry feed `[u4]` matches the most
recent transaction `txnU4`, and reconciliation completes without error. -/
theorem reconcile_no_index_error_witness :
    ∃ l, reconcile [alertU4] 150 [txnU3, txnU4] = .ok l :=
  reconcile_no_index_error [alertU4] 150 [txnU3, txnU4] txnU4 [txnU3]
    (by norm_num) rfl alertU4 (List.mem_singleton.mpr rfl) (by with_unfolding_all decide)

/-- Claim C4, counterexample to the claim as stated: a non-empty feed in which no
entry value-matches the most recent persisted transaction makes the boundary check
`alerts[len(new_alerts)]` index one past the end of the feed — reconciliation raises
IndexError instead of completing. -/
theorem reconcile_index_error_counterexample :
    alert_same_as_transaction alertU1 txnU4 = false ∧
    reconcile [alertU1] 150 [txnU3, txnU4] = .error .indexError := by
  with_unfolding_all decide

/-- Claim C5 (code bug): for an alert whose `data` lacks the `"boons"` key, the
parse-failure handler is supposed to send the sender the fallback `0.01` with an
error note and advance `handled_alerts` by one.  Instead, the fallback
`give_boons_logged` call itself reads `input_alert.data["boons"]` — exactly the key
that is missing on this path — so the `KeyError` escapes the handler before any
transaction is appended, nothing is sent, and `handled_alerts` is not advanced: the
state is returned untouched with an uncaught exception. -/
theorem parse_failure_crash (st : BotState) (u : String) (msg : Option String)
    (now bank : ℚ) (rand pick : ℕ) :
    handle_alert st ⟨some ⟨some u, none, msg⟩⟩ now bank rand pick
      = ⟨st, .parseFail, some .keyError⟩ :=
  rfl

/-- Claim C7: in every run of the per-notification step, the cooldown map is left
unchanged on every non-payout branch (parse failure, deposit marker, cooldown block,
wager over ceiling, wager under minimum, payout computation failure), and on the
payout branch it is exactly the prior map updated at the parsed sender with the
current time (set immediately before the send). -/
theorem cooldowns_update_only_on_payout (st : BotState) (alert : RawAlert)
    (now bank : ℚ) (rand pick : ℕ) :
    ((handle_alert st alert now bank rand pick).state.cooldowns = st.cooldowns ∧
     (handle_alert st alert now bank rand pick).branch ≠ .payout) ∨
    ((handle_alert st alert now bank rand pick).branch = .payout ∧
     ∃ d u, alert.data = some d ∧ d.username = some u ∧
       (handle_alert st alert now bank rand pick).state.cooldowns
         = updateCooldown st.cooldowns u now) := by
  obtain ⟨data⟩ := alert
  cases data with
  | none => left; exact ⟨rfl, by simp [handle_alert]⟩
  | some d =>
    obtain ⟨du, db, dm⟩ := d
    cases du with
    | none => left; exact ⟨rfl, by simp [handle_alert]⟩
    | some u =>
      cases db with
      | none => left; exact ⟨rfl, by simp [handle_alert, give_boons_logged]⟩
      | some b =>
        simp only [handle_alert, give_boons_logged]
        cases hcd : check_cooldown u now st.cooldowns COOLDOWN <;>
          cases hg : gamble b (to_max_value bank) rand <;>
            split_ifs <;>
              first
                | (left; exact ⟨rfl, by simp⟩)
                | (right; exact ⟨rfl, ⟨⟨some u, some b, dm⟩, u, rfl, rfl, rfl⟩⟩)

/-- Claim C8: for a sender present in the cooldown map, the gate blocks exactly when
`now - cooldowns[sender] < window`; when blocked, the remaining wait is
`window - (now - cooldowns[sender])`, formatted as HH:MM:SS; and in the boundary
case `now - cooldowns[sender] = window - 1` the result is Blocked with one second
remaining, formatted `"00:00:01"`. -/
theorem cooldown_gate_spec (s : String) (now : ℚ) (cooldowns : List (String × ℚ))
    (w tstamp : ℚ) (hs : lookupCooldown cooldowns s = some tstamp) :
    (check_cooldown s now cooldowns w = .allowed ↔ w ≤ now - tstamp) ∧
    (now - tstamp < w →
      check_cooldown s now cooldowns w
        = .blocked (w - (now - tstamp)) (format_seconds_to_hhmmss (w - (now - tstamp)))) ∧
    (now - tstamp = w - 1 → check_cooldown s now cooldowns w = .blocked 1 "00:00:01") := by
  simp only [check_cooldown, hs]
  refine ⟨?_, ?_, ?_⟩
  · split_ifs with h
    · constructor
      · intro hc; exact absurd hc (by simp)
      · intro hw; linarith
    · constructor
      · intro _; linarith
      · intro _; rfl
  · intro h
    rw [if_pos h]
  · intro h
    have h1 : now - tstamp < w := by rw [h]; linarith
    rw [if_pos h1, h]
    have h2 : w - (w - 1) = 1 := by ring
    rw [h2]
    congr 1
    with_unfolding_all decide

/-- Witness for C8 at the boundary instance: `now - cooldowns[sender] = window - 1`
with the default window 21600 — blocked, one second remaining, `"00:00:01"`. -/
theorem cooldown_gate_spec_witness :
    check_cooldown "alice" 21599 [("alice", 0)] 21600 = .blocked 1 "00:00:01" :=
  (cooldown_gate_spec "alice" 21599 [("alice", 0)] 21600 0
      (by with_unfolding_all decide)).2.2 (by norm_num)

/-- Witness for C7 at a concrete input: a cooldown-blocked run leaves the cooldown
map unchanged. -/
theorem cooldowns_update_only_on_payout_witness :
    ((handle_alert ⟨0, [("n00b", 0)], []⟩ ⟨some ⟨some "n00b", some 5, some ""⟩⟩ 1 100 0 0).state.cooldowns
        = (BotState.mk 0 [("n00b", 0)] []).cooldowns ∧
     (handle_alert ⟨0, [("n00b", 0)], []⟩ ⟨some ⟨some "n00b", some 5, some ""⟩⟩ 1 100 0 0).branch
        ≠ .payout) ∨
    ((handle_alert ⟨0, [("n00b", 0)], []⟩ ⟨some ⟨some "n00b", some 5, some ""⟩⟩ 1 100 0 0).branch
        = .payout ∧
     ∃ d u, (RawAlert.mk (some ⟨some "n00b", some 5, some ""⟩)).data = some d ∧
       d.username = some u ∧
       (handle_alert ⟨0, [("n00b", 0)], []⟩ ⟨some ⟨some "n00b", some 5, some ""⟩⟩ 1 100 0 0).state.cooldowns
         = updateCooldown (BotState.mk 0 [("n00b", 0)] []).cooldowns u 1) :=
  cooldowns_update_only_on_payout ⟨0, [("n00b", 0)], []⟩
    ⟨some ⟨some "n00b", some 5, some ""⟩⟩ 1 100 0 0

end BoonGamble
